import Mathlib

/-!
# SlotcarPlugin (building_sim_gazebo/src/slotcar.cpp)

A shallow embedding of the per-tick control loop of `SlotcarPlugin`:
`init_infrastructure`, `send_control_signals` and `OnUpdate`.

Conventions of the embedding.

* `double` values are elements of a linearly ordered field `R` (`ℚ` and `ℝ` are
  instances; every finite binary64 value is a rational).  The operations on doubles
  that the obstacle scan of `OnUpdate` performs (`+`, `-`, `*`, `<`, `std::cos`,
  `std::sin`, and the `std::pow(x, 2)` and `sqrt` inside `Vector3d::Length`) are
  passed in as a `CMath R`, so what is proved for every `CMath R` holds for whatever
  those operations compute.  `CMath.exact` is the arithmetic in which no operation
  rounds; `binary64` is the arithmetic that rounds each result to the nearest
  binary64 value.  The elapsed time `dt` is the exact difference of the two clock
  values.
* A `gazebo::physics::Model*` is a natural number (the identity of the body);
  `std::unordered_set<Model*>` is a `Finset Nat`.
* Everything the simulator and `SlotcarCommon` (`dataPtr`) answer during one
  call of `OnUpdate` is collected in a `World` value, one per tick.
* Observable actions (the two `std::cout` lines, the call of
  `calculate_control_signals`, the `SetParam` calls, and the execution of
  `init_infrastructure`) are recorded, in program order, as a list of `Event`s.
* A `JointPtr` is an `Option Nat`; `none` is the null handle that
  `GetJoint` returns for a joint that does not exist.  Calling a member
  through a null handle ends the tick with `Outcome.null_dereference`.
-/

set_option linter.unusedSectionVars false

namespace Slotcar

/-- The operations on doubles that the obstacle scan performs. -/
structure CMath (R : Type) where
  /-- Sum of two doubles. -/
  add : R → R → R
  /-- Difference of two doubles. -/
  sub : R → R → R
  /-- Product of two doubles. -/
  mul : R → R → R
  /-- Comparison `a < b` of two doubles. -/
  lt : R → R → Bool
  /-- Function `std::cos`. -/
  cos : R → R
  /-- Function `std::sin`. -/
  sin : R → R
  /-- Function `sqrt`. -/
  sqrt : R → R
  /-- Function `std::pow(x, 2)`. -/
  pow2 : R → R

/-- Type `ignition::math::Vector3d`. -/
structure Vector3d (R : Type) where
  X : R
  Y : R
  Z : R

namespace Vector3d

variable {R : Type}

/-- Vector sum, `Vector3d::operator+`. -/
def add (M : CMath R) (a b : Vector3d R) : Vector3d R :=
  ⟨M.add a.X b.X, M.add a.Y b.Y, M.add a.Z b.Z⟩

/-- Vector difference, `Vector3d::operator-`. -/
def sub (M : CMath R) (a b : Vector3d R) : Vector3d R :=
  ⟨M.sub a.X b.X, M.sub a.Y b.Y, M.sub a.Z b.Z⟩

/-- Scalar times vector, `operator*(double, Vector3d)`. -/
def scale (M : CMath R) (s : R) (v : Vector3d R) : Vector3d R :=
  ⟨M.mul v.X s, M.mul v.Y s, M.mul v.Z s⟩

/-- Norm, `Vector3d::Length`: the square root of the sum of the three squares. -/
def Length (M : CMath R) (v : Vector3d R) : R :=
  M.sqrt (M.add (M.add (M.pow2 v.X) (M.pow2 v.Y)) (M.pow2 v.Z))

end Vector3d

/-- What the code reads of an `ignition::math::Pose3d`: `Pos()` and `Rot().Yaw()`. -/
structure Pose3d (R : Type) where
  Pos : Vector3d R
  Yaw : R

/-- What the code reads of a `gazebo::physics::Model` of the world: its address
(`m.get()`), `GetName()`, `IsStatic()` and `WorldPose().Pos()`. -/
structure Model (R : Type) where
  id : Nat
  GetName : String
  IsStatic : Bool
  WorldPos : Vector3d R

/-- The answers of the simulator and of `SlotcarCommon` during one call of `OnUpdate`. -/
structure World (R : Type) where
  /-- Value of `world->SimTime().Double()`. -/
  SimTime : R
  /-- Value of `_model->WorldPose()`. -/
  WorldPose : Pose3d R
  /-- Value of `world->Models()`. -/
  Models : List (Model R)
  /-- Method `dataPtr->update(pose, time, x_target, yaw_target)`: from the pose, the
  time and the incoming values of the two reference parameters to the returned
  flag and the outgoing values of the two reference parameters. -/
  update : Pose3d R → R → R × R → Bool × (R × R)
  /-- Value of `dataPtr->stop_distance()`. -/
  stop_distance : R
  /-- Value of `dataPtr->stop_radius()`. -/
  stop_radius : R
  /-- Value of `joint->GetVelocity(0)` for a joint handle. -/
  GetVelocity : Nat → R
  /-- Method `dataPtr->calculate_control_signals(w_tire_actual, x_target, yaw_target, dt)`. -/
  calculate_control_signals : R × R → R → R → R → R × R

/-- The two lines the plugin prints on `std::cout`. -/
inductive Notification where
  /-- Line "Stopping vehicle to avoid a collision". -/
  | stopping
  /-- Line "No more obstacles; resuming course". -/
  | resuming
  deriving DecidableEq, Repr

/-- Observable actions of the plugin. -/
inductive Event (R : Type) where
  /-- One execution of `init_infrastructure()`. -/
  | init_infrastructure : Event R
  /-- One line written to `std::cout`. -/
  | cout : Notification → Event R
  /-- One call `dataPtr->calculate_control_signals(w_tire_actual, x_target, yaw_target, dt)`. -/
  | calculate_control_signals : R × R → R → R → R → Event R
  /-- One call `joint->SetParam(key, 0, value)` on a joint handle. -/
  | SetParam : Nat → String → R → Event R

/-- How a call ended. -/
inductive Outcome where
  /-- The call ran to its end (or to a `return`). -/
  | returned
  /-- The call invoked a member through a null joint handle. -/
  | null_dereference
  deriving DecidableEq, Repr

/-- The data members of `SlotcarPlugin` that the tick reads or writes. -/
structure SlotcarPlugin (R : Type) where
  _model : Nat
  joints : Option Nat × Option Nat
  emergency_stop : Bool
  infrastructure : Finset Nat
  last_update_time : R
  initialised : Bool

/-- The plugin with its state at the point where a call of `OnUpdate` ended, the
events of the call in program order, and how the call ended. -/
structure TickResult (R : Type) where
  state : SlotcarPlugin R
  events : List (Event R)
  outcome : Outcome

variable {R : Type} [LinearOrderedField R]

/-- Search of `std::string::find`, from position `pos`: the first position at which
`pat` starts, `none` for `npos`. -/
def find_from (pat : List Char) : List Char → Nat → Option Nat
  | [], pos => if pat.isPrefixOf [] then some pos else none
  | c :: cs, pos => if pat.isPrefixOf (c :: cs) then some pos else find_from pat cs (pos + 1)

/-- The call `s.find(pat)` of `std::string`. -/
def find (s pat : String) : Option Nat := find_from pat.toList s.toList 0

/-- The state after construction and `Load`: the member initialisers of the class,
the model, and the two handles `GetJoint` returned (`none` when the joint was not
found).  Logging and the subscriptions are not part of the model. -/
def Load (model : Nat) (joint_tire_left joint_tire_right : Option Nat) : SlotcarPlugin R where
  _model := model
  joints := (joint_tire_left, joint_tire_right)
  emergency_stop := false
  infrastructure := ∅
  last_update_time := 0
  initialised := false

/-- The loop of `init_infrastructure` over `world->Models()`. -/
def init_infrastructure_loop : Finset Nat → List (Model R) → Finset Nat
  | infrastructure, [] => infrastructure
  | infrastructure, m :: ms =>
    if m.IsStatic then init_infrastructure_loop infrastructure ms
    else
      let s1 := if find m.GetName "door" ≠ none then insert m.id infrastructure
                else infrastructure
      let s2 := if find m.GetName "lift" ≠ none then insert m.id s1 else s1
      init_infrastructure_loop s2 ms

/-- Method `SlotcarPlugin::init_infrastructure`. -/
def init_infrastructure (p : SlotcarPlugin R) (w : World R) : SlotcarPlugin R :=
  { p with infrastructure := init_infrastructure_loop (insert p._model p.infrastructure) w.Models }

/-- Method `SlotcarPlugin::send_control_signals`: the events of the call and how it ended.
The first loop reads `joints[0]` and then `joints[1]`; a null handle ends the call
there, before `calculate_control_signals` and before any `SetParam`. -/
def send_control_signals (p : SlotcarPlugin R) (w : World R) (x_target yaw_target dt : R) :
    List (Event R) × Outcome :=
  match p.joints with
  | (some j0, some j1) =>
    let w_tire_actual := (w.GetVelocity j0, w.GetVelocity j1)
    let joint_signals := w.calculate_control_signals w_tire_actual x_target yaw_target dt
    ([Event.calculate_control_signals w_tire_actual x_target yaw_target dt,
      Event.SetParam j0 "vel" joint_signals.1, Event.SetParam j0 "fmax" 10000000,
      Event.SetParam j1 "vel" joint_signals.2, Event.SetParam j1 "fmax" 10000000],
     Outcome.returned)
  | _ => ([], Outcome.null_dereference)

/-- The point `stop_zone` of `OnUpdate`:
`pose.Pos() + dataPtr->stop_distance()*current_heading`. -/
def stop_zone (M : CMath R) (pose : Pose3d R) (stop_distance : R) : Vector3d R :=
  let current_yaw := pose.Yaw
  let current_heading : Vector3d R := ⟨M.cos current_yaw, M.sin current_yaw, 0⟩
  Vector3d.add M pose.Pos (Vector3d.scale M stop_distance current_heading)

/-- The loop of `OnUpdate` that computes `need_to_stop`. -/
def need_to_stop_loop (M : CMath R) (stop_zone : Vector3d R) (stop_radius : R)
    (infrastructure : Finset Nat) : List (Model R) → Bool
  | [] => false
  | m :: ms =>
    if m.IsStatic then need_to_stop_loop M stop_zone stop_radius infrastructure ms
    else if m.id ∈ infrastructure then
      need_to_stop_loop M stop_zone stop_radius infrastructure ms
    else if M.lt (Vector3d.Length M (Vector3d.sub M m.WorldPos stop_zone)) stop_radius then true
    else need_to_stop_loop M stop_zone stop_radius infrastructure ms

/-- The value of `need_to_stop` in `OnUpdate` (lines 154 to 176). -/
def need_to_stop (M : CMath R) (pose : Pose3d R) (stop_distance stop_radius : R)
    (infrastructure : Finset Nat) (models : List (Model R)) : Bool :=
  need_to_stop_loop M (stop_zone M pose stop_distance) stop_radius infrastructure models

/-- The lazy initialisation at the head of `OnUpdate` (lines 137 to 141). -/
def ensure_initialised (p : SlotcarPlugin R) (w : World R) : SlotcarPlugin R × List (Event R) :=
  if p.initialised = false then
    ({ init_infrastructure p w with initialised := true }, [Event.init_infrastructure])
  else (p, [])

/-- Method `SlotcarPlugin::OnUpdate`. -/
def OnUpdate (M : CMath R) (p : SlotcarPlugin R) (w : World R) : TickResult R :=
  let (p1, ev1) := ensure_initialised p w
  let time := w.SimTime
  let dt := time - p1.last_update_time
  let p2 := { p1 with last_update_time := time }
  let pose := w.WorldPose
  match w.update pose time (0, 0) with
  | (false, _) => ⟨p2, ev1, Outcome.returned⟩
  | (true, (x_target, yaw_target)) =>
    let need := need_to_stop M pose w.stop_distance w.stop_radius p2.infrastructure w.Models
    let (p3, ev3) :=
      if need ≠ p2.emergency_stop then
        ({ p2 with emergency_stop := need },
          [Event.cout (if need then Notification.stopping else Notification.resuming)])
      else (p2, [])
    let x_target := if p3.emergency_stop then 0 else x_target
    let (ev4, out) := send_control_signals p3 w x_target yaw_target dt
    ⟨p3, ev1 ++ ev3 ++ ev4, out⟩

/-- Successive calls of `OnUpdate`, one per world of the list, from state `p`: the
result of every call that took place.  No call follows one that ended in a null
dereference. -/
def run (M : CMath R) (p : SlotcarPlugin R) : List (World R) → List (TickResult R)
  | [] => []
  | w :: ws =>
    let r := OnUpdate M p w
    r :: (if r.outcome = Outcome.returned then run M r.state ws else [])

/-- The value of `(p_obstacle - stop_zone).Length()` in `OnUpdate` for a body at
`p_obstacle`. -/
def computed_distance (M : CMath R) (pose : Pose3d R) (stop_distance : R)
    (p_obstacle : Vector3d R) : R :=
  Vector3d.Length M (Vector3d.sub M p_obstacle (stop_zone M pose stop_distance))

/-- The value `need_to_stop` takes in the call `OnUpdate` on state `p` in world `w`, when
the call gets that far: the scan of `w.Models` against the infrastructure set as it is
after the lazy initialisation of that call. -/
def verdict (M : CMath R) (p : SlotcarPlugin R) (w : World R) : Bool :=
  need_to_stop M w.WorldPose w.stop_distance w.stop_radius
    (ensure_initialised p w).1.infrastructure w.Models

/-! ## Two arithmetics -/

/-- The arithmetic in which no operation rounds: the field operations and order of `R`,
with the given `cos`, `sin` and `sqrt`. -/
def CMath.exact (cos sin sqrt : R → R) : CMath R where
  add := fun a b => a + b
  sub := fun a b => a - b
  mul := fun a b => a * b
  lt := fun a b => decide (a < b)
  cos := cos
  sin := sin
  sqrt := sqrt
  pow2 := fun x => x ^ 2

/-- The integer nearest to `q`; of two equally near integers, the even one. -/
def round_half_even (q : ℚ) : ℤ :=
  if q - ⌊q⌋ < 1 / 2 then ⌊q⌋
  else if 1 / 2 < q - ⌊q⌋ then ⌊q⌋ + 1
  else if ⌊q⌋ % 2 = 0 then ⌊q⌋
  else ⌊q⌋ + 1

/-- Rounding to binary64, round to nearest, ties to even, for results in the finite
range: the nearest multiple of `2 ^ e`, where `e` is the exponent of the last of the 53
bits of the significand, and at least -1074 (the subnormal spacing).  Overflow to
infinity is outside this model. -/
def round_binary64 (q : ℚ) : ℚ :=
  (round_half_even (q / 2 ^ max (Int.log 2 |q| - 52) (-1074)) : ℚ)
    * 2 ^ max (Int.log 2 |q| - 52) (-1074)

/-- Binary64 arithmetic on finite values: sum, difference and product are the exact
results rounded to binary64, the comparison is exact, and the four library functions
are the given ones. -/
def binary64 (cos sin sqrt pow2 : ℚ → ℚ) : CMath ℚ where
  add := fun a b => round_binary64 (a + b)
  sub := fun a b => round_binary64 (a - b)
  mul := fun a b => round_binary64 (a * b)
  lt := fun a b => decide (a < b)
  cos := cos
  sin := sin
  sqrt := sqrt
  pow2 := pow2

/-- Claim wording: some body of the list is not static, is not in the infrastructure
set, and lies at Euclidean distance strictly less than `r` from the point
`Pos + d * (cos yaw, sin yaw, 0)`, in real arithmetic. -/
def euclidean_blocked (pose : Pose3d ℝ) (d r : ℝ) (infrastructure : Finset Nat)
    (models : List (Model ℝ)) : Prop :=
  ∃ m ∈ models, m.IsStatic = false ∧ m.id ∉ infrastructure ∧
    Real.sqrt ((m.WorldPos.X - (pose.Pos.X + d * Real.cos pose.Yaw)) ^ 2
      + (m.WorldPos.Y - (pose.Pos.Y + d * Real.sin pose.Yaw)) ^ 2
      + (m.WorldPos.Z - pose.Pos.Z) ^ 2) < r

/-! ## Projections of an event list -/

/-- The lines written to `std::cout`, in order. -/
def notifications : List (Event R) → List Notification :=
  List.filterMap fun e => match e with
    | Event.cout n => some n
    | _ => none

/-- The argument tuples of the calls of `calculate_control_signals`, in order. -/
def drive_mapper_calls : List (Event R) → List ((R × R) × R × R × R) :=
  List.filterMap fun e => match e with
    | Event.calculate_control_signals wt x yaw dt => some (wt, x, yaw, dt)
    | _ => none

/-- The `SetParam` calls (joint, key, value), in order. -/
def actuator_calls : List (Event R) → List (Nat × String × R) :=
  List.filterMap fun e => match e with
    | Event.SetParam j key v => some (j, key, v)
    | _ => none

/-- The number of executions of `init_infrastructure`. -/
def init_infrastructure_count : List (Event R) → Nat :=
  List.countP fun e => match e with
    | Event.init_infrastructure => true
    | _ => false

/-- Spec wording "the name contains the substring": `pat` occurs as a contiguous
block of characters of `name`. -/
def contains_substring (name pat : String) : Prop := pat.toList <:+: name.toList

instance (name pat : String) : Decidable (contains_substring name pat) := by
  unfold contains_substring; infer_instance

/-- Two entries of `world->Models()` that are the same body, with the same name and the
same static flag, and with the same position unless the body is in the infrastructure
set. -/
def same_up_to_exempt_position (infrastructure : Finset Nat) (a b : Model R) : Prop :=
  a.id = b.id ∧ a.GetName = b.GetName ∧ a.IsStatic = b.IsStatic ∧
    (a.id ∉ infrastructure → a.WorldPos = b.WorldPos)

/-- The notifications of a sequence of ticks, in order. -/
def trace : List (TickResult R) → List Notification
  | [] => []
  | r :: rs => notifications r.events ++ trace rs

/-- The stop flag after each tick of a sequence. -/
def flags (rs : List (TickResult R)) : List Bool := rs.map fun r => r.state.emergency_stop

/-- The number of times the stop flag changes value along a sequence of flags that
starts from flag `s`. -/
def flag_changes : Bool → List Bool → Nat
  | _, [] => 0
  | s, b :: bs => (if b = s then 0 else 1) + flag_changes b bs

/-- The alternating sequence of `k` notifications whose first one is "stopping" when
`s` is false and "resuming" when `s` is true. -/
def alternating : Bool → Nat → List Notification
  | _, 0 => []
  | s, k + 1 => (if s then Notification.resuming else Notification.stopping) :: alternating (!s) k

/-! ## Scenario data -/

/-- The pose of the scenarios: the vehicle at the origin with yaw 0. -/
def scenario_pose : Pose3d R := ⟨⟨0, 0, 0⟩, 0⟩

/-- A non-static body on the ground plane. -/
def dynamic_body (id : Nat) (name : String) (x y : R) : Model R := ⟨id, name, false, ⟨x, y, 0⟩⟩

/-- A static body on the ground plane. -/
def static_body (id : Nat) (name : String) (x y : R) : Model R := ⟨id, name, true, ⟨x, y, 0⟩⟩

/-- A world of the scenarios: the vehicle at the origin with yaw 0, `stop_distance` 1.0,
`stop_radius` 0.5, wheels at rest, the given clock, trajectory answer (`none` when
`update` returns false) and bodies. -/
def scenario_world (time : R) (target : Option (R × R)) (models : List (Model R)) : World R where
  SimTime := time
  WorldPose := scenario_pose
  Models := models
  update := fun _ _ xy => match target with
    | none => (false, xy)
    | some t => (true, t)
  stop_distance := 1
  stop_radius := 1 / 2
  GetVelocity := fun _ => 0
  calculate_control_signals := fun _ x yaw _ => (x - yaw, x + yaw)

/-- The vehicle of the scenarios after `Load`: body 0, with wheel joints 1 and 2. -/
def scenario_vehicle : SlotcarPlugin R := Load 0 (some 1) (some 2)

/-- Scenario A at time `time`: target (2, 0.5) and a dynamic body "crate" at (1, 0). -/
def blocked_world (time : R) : World R :=
  scenario_world time (some (2, 1 / 2)) [dynamic_body 7 "crate" 1 0]

/-- Scenario C at time `time`: target (2, 0.5) and the body "crate" moved to (5, 0). -/
def clear_world (time : R) : World R :=
  scenario_world time (some (2, 1 / 2)) [dynamic_body 7 "crate" 5 0]

/-- Scenario D at time `time`: no target, the body "crate" at (1, 0). -/
def exhausted_world (time : R) : World R :=
  scenario_world time none [dynamic_body 7 "crate" 1 0]

/-! ## `std::string::find` -/

theorem find_from_isSome (pat s : List Char) (pos : Nat) :
    (find_from pat s pos).isSome = true ↔ pat <:+: s := by
  induction s generalizing pos with
  | nil =>
    cases pat <;> simp [find_from, List.isPrefixOf]
  | cons c cs ih =>
    unfold find_from
    by_cases hp : pat.isPrefixOf (c :: cs) = true
    · rw [if_pos hp]
      simpa using (List.isPrefixOf_iff_prefix.mp hp).isInfix
    · rw [if_neg hp, ih, List.infix_cons_iff]
      have hp2 : ¬ pat <+: c :: cs := fun h => hp (List.isPrefixOf_iff_prefix.mpr h)
      tauto

theorem find_ne_none_iff (s pat : String) :
    find s pat ≠ none ↔ contains_substring s pat := by
  unfold find contains_substring
  rw [← find_from_isSome pat.toList s.toList 0, Option.isSome_iff_ne_none]

/-! ## The shape of one tick -/

theorem ensure_initialised_emergency_stop (p : SlotcarPlugin R) (w : World R) :
    (ensure_initialised p w).1.emergency_stop = p.emergency_stop := by
  unfold ensure_initialised init_infrastructure; split <;> rfl

theorem ensure_initialised_last_update_time (p : SlotcarPlugin R) (w : World R) :
    (ensure_initialised p w).1.last_update_time = p.last_update_time := by
  unfold ensure_initialised init_infrastructure; split <;> rfl

theorem ensure_initialised_joints (p : SlotcarPlugin R) (w : World R) :
    (ensure_initialised p w).1.joints = p.joints := by
  unfold ensure_initialised init_infrastructure; split <;> rfl

theorem ensure_initialised_initialised (p : SlotcarPlugin R) (w : World R) :
    (ensure_initialised p w).1.initialised = true := by
  unfold ensure_initialised
  split
  · rfl
  · rename_i h; simpa using h

theorem send_control_signals_joints (p q : SlotcarPlugin R) (w : World R) (x yaw dt : R)
    (h : p.joints = q.joints) :
    send_control_signals p w x yaw dt = send_control_signals q w x yaw dt := by
  unfold send_control_signals; rw [h]

/-- A tick on which `update` returns false. -/
theorem OnUpdate_no_target (M : CMath R) (p : SlotcarPlugin R) (w : World R)
    (h : (w.update w.WorldPose w.SimTime (0, 0)).1 = false) :
    OnUpdate M p w =
      ⟨{ (ensure_initialised p w).1 with last_update_time := w.SimTime },
        (ensure_initialised p w).2, Outcome.returned⟩ := by
  unfold OnUpdate
  rcases hu : w.update w.WorldPose w.SimTime (0, 0) with ⟨b, x, yaw⟩
  rw [hu] at h
  simp only at h
  subst h
  simp only [hu]

/-- A tick on which `update` returns true. -/
theorem OnUpdate_target (M : CMath R) (p : SlotcarPlugin R) (w : World R) (x yaw : R)
    (h : w.update w.WorldPose w.SimTime (0, 0) = (true, (x, yaw))) :
    OnUpdate M p w =
      ⟨{ (ensure_initialised p w).1 with
          last_update_time := w.SimTime, emergency_stop := verdict M p w },
        (ensure_initialised p w).2 ++
          (if verdict M p w ≠ p.emergency_stop then
            [Event.cout (if verdict M p w then Notification.stopping
              else Notification.resuming)]
           else []) ++
          (send_control_signals p w (if verdict M p w then 0 else x) yaw
            (w.SimTime - p.last_update_time)).1,
        (send_control_signals p w (if verdict M p w then 0 else x) yaw
            (w.SimTime - p.last_update_time)).2⟩ := by
  unfold OnUpdate
  simp only [h]
  have hs := ensure_initialised_emergency_stop p w
  have hl := ensure_initialised_last_update_time p w
  have hj := ensure_initialised_joints p w
  rcases he : ensure_initialised p w with ⟨p1, ev1⟩
  rw [he] at hs hl hj
  simp only at hs hl hj
  have hv : verdict M p w
      = need_to_stop M w.WorldPose w.stop_distance w.stop_radius p1.infrastructure w.Models := by
    unfold verdict; rw [he]
  rw [hv]
  by_cases hn : need_to_stop M w.WorldPose w.stop_distance w.stop_radius p1.infrastructure
      w.Models = p.emergency_stop
  · have e1 : send_control_signals
        { p1 with last_update_time := w.SimTime } w
        (if p.emergency_stop = true then 0 else x) yaw (w.SimTime - p.last_update_time)
        = send_control_signals p w (if p.emergency_stop = true then 0 else x) yaw
          (w.SimTime - p.last_update_time) := send_control_signals_joints _ _ _ _ _ _ hj
    simp [hn, hs, hl, e1]
    cases p1; simp_all
  · have e1 : ∀ b : Bool, send_control_signals
        { p1 with last_update_time := w.SimTime, emergency_stop := b } w
        (if b = true then 0 else x) yaw (w.SimTime - p.last_update_time)
        = send_control_signals p w (if b = true then 0 else x) yaw
          (w.SimTime - p.last_update_time) :=
      fun b => send_control_signals_joints _ _ _ _ _ _ hj
    simp [hn, hs, hl, e1]

/-! ## Events of the parts of a tick -/

theorem notifications_append (a b : List (Event R)) :
    notifications (a ++ b) = notifications a ++ notifications b := by
  unfold notifications; exact List.filterMap_append _ _ _

theorem drive_mapper_calls_append (a b : List (Event R)) :
    drive_mapper_calls (a ++ b) = drive_mapper_calls a ++ drive_mapper_calls b := by
  unfold drive_mapper_calls; exact List.filterMap_append _ _ _

theorem actuator_calls_append (a b : List (Event R)) :
    actuator_calls (a ++ b) = actuator_calls a ++ actuator_calls b := by
  unfold actuator_calls; exact List.filterMap_append _ _ _

theorem init_infrastructure_count_append (a b : List (Event R)) :
    init_infrastructure_count (a ++ b)
      = init_infrastructure_count a + init_infrastructure_count b := by
  unfold init_infrastructure_count; exact List.countP_append _ _ _

theorem ensure_initialised_events (p : SlotcarPlugin R) (w : World R) :
    notifications (ensure_initialised p w).2 = [] ∧
    drive_mapper_calls (ensure_initialised p w).2 = [] ∧
    actuator_calls (ensure_initialised p w).2 = [] ∧
    init_infrastructure_count (ensure_initialised p w).2
      = if p.initialised = false then 1 else 0 := by
  unfold ensure_initialised
  by_cases h : p.initialised = false
  · simp [h, notifications, drive_mapper_calls, actuator_calls, init_infrastructure_count]
  · simp [h, notifications, drive_mapper_calls, actuator_calls, init_infrastructure_count]

theorem send_control_signals_events (p : SlotcarPlugin R) (w : World R) (x yaw dt : R) :
    notifications (send_control_signals p w x yaw dt).1 = [] ∧
    init_infrastructure_count (send_control_signals p w x yaw dt).1 = 0 := by
  unfold send_control_signals
  split <;> simp [notifications, init_infrastructure_count]

theorem send_control_signals_present (p : SlotcarPlugin R) (w : World R) (x yaw dt : R)
    (j0 j1 : Nat) (hj : p.joints = (some j0, some j1)) :
    send_control_signals p w x yaw dt =
      ([Event.calculate_control_signals (w.GetVelocity j0, w.GetVelocity j1) x yaw dt,
        Event.SetParam j0 "vel"
          (w.calculate_control_signals (w.GetVelocity j0, w.GetVelocity j1) x yaw dt).1,
        Event.SetParam j0 "fmax" 10000000,
        Event.SetParam j1 "vel"
          (w.calculate_control_signals (w.GetVelocity j0, w.GetVelocity j1) x yaw dt).2,
        Event.SetParam j1 "fmax" 10000000],
       Outcome.returned) := by
  unfold send_control_signals; rw [hj]

theorem send_control_signals_absent (p : SlotcarPlugin R) (w : World R) (x yaw dt : R)
    (hj : p.joints.1 = none ∨ p.joints.2 = none) :
    send_control_signals p w x yaw dt = ([], Outcome.null_dereference) := by
  unfold send_control_signals
  rcases hp : p.joints with ⟨a, b⟩
  rw [hp] at hj
  cases a <;> cases b <;> simp_all

theorem send_control_signals_returned (p : SlotcarPlugin R) (w : World R) (x yaw dt : R)
    (h : (send_control_signals p w x yaw dt).2 = Outcome.returned) :
    ∃ j0 j1, p.joints = (some j0, some j1) := by
  unfold send_control_signals at h
  rcases hp : p.joints with ⟨a, b⟩
  rw [hp] at h
  cases a <;> cases b <;> simp_all

theorem cout_events (c : Prop) [Decidable c] (n : Notification) :
    notifications (if c then [(Event.cout n : Event R)] else []) = (if c then [n] else []) ∧
    drive_mapper_calls (if c then [(Event.cout n : Event R)] else []) = [] ∧
    actuator_calls (if c then [(Event.cout n : Event R)] else []) = [] ∧
    init_infrastructure_count (if c then [(Event.cout n : Event R)] else []) = 0 := by
  by_cases h : c <;>
    simp [h, notifications, drive_mapper_calls, actuator_calls, init_infrastructure_count]

/-- The notifications of any tick, from the stop flag before and after it. -/
theorem OnUpdate_notifications (M : CMath R) (p : SlotcarPlugin R) (w : World R) :
    notifications (OnUpdate M p w).events =
      if (OnUpdate M p w).state.emergency_stop ≠ p.emergency_stop then
        [if (OnUpdate M p w).state.emergency_stop then Notification.stopping
          else Notification.resuming]
      else [] := by
  rcases hu : w.update w.WorldPose w.SimTime (0, 0) with ⟨b, x, yaw⟩
  cases b
  · rw [OnUpdate_no_target M p w (by rw [hu])]
    simp [(ensure_initialised_events p w).1, ensure_initialised_emergency_stop]
  · rw [OnUpdate_target M p w x yaw hu]
    simp only [notifications_append, (ensure_initialised_events p w).1,
      (send_control_signals_events p w _ _ _).1, List.nil_append, List.append_nil]
    by_cases hv : verdict M p w = p.emergency_stop
    · simp [hv, notifications]
    · simp [hv, notifications]

/-! ## Claims about one tick -/

/-- C1 (Stop Arbiter single step): on a tick in which `update` reports a target, the stop
flag after the tick equals the Obstacle Monitor verdict `v` of that tick; when `v` equals
the prior flag no notification is emitted; when it differs exactly one notification is
emitted, "stopping" when `v` is true and "resuming" when `v` is false. -/
theorem C1_stop_arbiter_single_step (M : CMath R) (p : SlotcarPlugin R) (w : World R)
    (x yaw : R) (h : w.update w.WorldPose w.SimTime (0, 0) = (true, (x, yaw))) :
    (OnUpdate M p w).state.emergency_stop = verdict M p w ∧
    (verdict M p w = p.emergency_stop → notifications (OnUpdate M p w).events = []) ∧
    (verdict M p w ≠ p.emergency_stop →
      notifications (OnUpdate M p w).events =
        [if verdict M p w then Notification.stopping else Notification.resuming]) := by
  have hs : (OnUpdate M p w).state.emergency_stop = verdict M p w := by
    rw [OnUpdate_target M p w x yaw h]
  refine ⟨hs, fun hv => ?_, fun hv => ?_⟩
  · rw [OnUpdate_notifications, hs]; simp [hv]
  · rw [OnUpdate_notifications, hs]; simp [hv]

/-- Stop veto on a tick that runs to its end: on a tick in which `update` returns the
target `(x, yaw)` and which returns, `calculate_control_signals` is called exactly once, with the measured
velocities of the two wheel joints, with yaw rate `yaw` unmodified, with elapsed time
`SimTime - last_update_time`, and with forward velocity 0 when the stop flag is set after
this tick and `x` otherwise; in particular a target `(0, yaw)` while stopped gives a call
with `(0, yaw)`. -/
theorem stop_veto_of_returned (M : CMath R) (p : SlotcarPlugin R) (w : World R) (x yaw : R)
    (h : w.update w.WorldPose w.SimTime (0, 0) = (true, (x, yaw)))
    (hr : (OnUpdate M p w).outcome = Outcome.returned) :
    ∃ j0 j1, p.joints = (some j0, some j1) ∧
      drive_mapper_calls (OnUpdate M p w).events =
        [((w.GetVelocity j0, w.GetVelocity j1),
          (if (OnUpdate M p w).state.emergency_stop then 0 else x), yaw,
          w.SimTime - p.last_update_time)] ∧
      (x = 0 → (OnUpdate M p w).state.emergency_stop = true →
        drive_mapper_calls (OnUpdate M p w).events =
          [((w.GetVelocity j0, w.GetVelocity j1), 0, yaw,
            w.SimTime - p.last_update_time)]) := by
  obtain ⟨j0, j1, hj⟩ : ∃ j0 j1, p.joints = (some j0, some j1) := by
    rw [OnUpdate_target M p w x yaw h] at hr
    exact send_control_signals_returned p w _ _ _ hr
  have key : drive_mapper_calls (OnUpdate M p w).events =
      [((w.GetVelocity j0, w.GetVelocity j1),
        (if (OnUpdate M p w).state.emergency_stop then 0 else x), yaw,
        w.SimTime - p.last_update_time)] := by
    rw [OnUpdate_target M p w x yaw h]
    simp only [drive_mapper_calls_append, (ensure_initialised_events p w).2.1,
      List.nil_append, send_control_signals_present p w _ _ _ j0 j1 hj]
    rw [(cout_events _ _).2.1]
    simp [drive_mapper_calls]
  refine ⟨j0, j1, hj, key, fun hx hs => ?_⟩
  rw [key, hs, hx]; simp

/-- C4 (trajectory exhaustion): on a tick in which `update` reports no target, `OnUpdate`
returns without calling `calculate_control_signals`, without any `SetParam` call, without
a notification, and with the stop flag unchanged, whatever the world contains. -/
theorem C4_trajectory_exhaustion (M : CMath R) (p : SlotcarPlugin R) (w : World R)
    (h : (w.update w.WorldPose w.SimTime (0, 0)).1 = false) :
    drive_mapper_calls (OnUpdate M p w).events = [] ∧
    actuator_calls (OnUpdate M p w).events = [] ∧
    notifications (OnUpdate M p w).events = [] ∧
    (OnUpdate M p w).state.emergency_stop = p.emergency_stop ∧
    (OnUpdate M p w).outcome = Outcome.returned := by
  rw [OnUpdate_no_target M p w h]
  exact ⟨(ensure_initialised_events p w).2.1, (ensure_initialised_events p w).2.2.1,
    (ensure_initialised_events p w).1, ensure_initialised_emergency_stop p w, rfl⟩

/-! ## The Obstacle Monitor -/

theorem need_to_stop_loop_iff (M : CMath R) (zone : Vector3d R) (r : R)
    (infrastructure : Finset Nat) (ms : List (Model R)) :
    need_to_stop_loop M zone r infrastructure ms = true ↔
      ∃ m ∈ ms, m.IsStatic = false ∧ m.id ∉ infrastructure ∧
        M.lt (Vector3d.Length M (Vector3d.sub M m.WorldPos zone)) r = true := by
  induction ms with
  | nil => simp [need_to_stop_loop]
  | cons m ms ih =>
    unfold need_to_stop_loop
    by_cases hs : m.IsStatic = true
    · simp [hs, ih]
    · by_cases hi : m.id ∈ infrastructure
      · simp [hs, hi, ih]
      · by_cases hl : M.lt (Vector3d.Length M (Vector3d.sub M m.WorldPos zone)) r = true
        · simp [hs, hi, hl]
        · simp [hs, hi, hl, ih]

theorem need_to_stop_iff (M : CMath R) (pose : Pose3d R) (d r : R)
    (infrastructure : Finset Nat) (models : List (Model R)) :
    need_to_stop M pose d r infrastructure models = true ↔
      ∃ m ∈ models, m.IsStatic = false ∧ m.id ∉ infrastructure ∧
        M.lt (computed_distance M pose d m.WorldPos) r = true := by
  unfold need_to_stop computed_distance
  exact need_to_stop_loop_iff M _ r infrastructure models

theorem computed_distance_exact (cos sin sqrt : R → R) (pose : Pose3d R) (d : R)
    (q : Vector3d R) :
    computed_distance (CMath.exact cos sin sqrt) pose d q =
      sqrt ((q.X - (pose.Pos.X + d * cos pose.Yaw)) ^ 2
        + (q.Y - (pose.Pos.Y + d * sin pose.Yaw)) ^ 2 + (q.Z - pose.Pos.Z) ^ 2) := by
  simp [computed_distance, stop_zone, Vector3d.Length, Vector3d.sub, Vector3d.add,
    Vector3d.scale, CMath.exact, mul_comm]

theorem need_to_stop_exact_iff (cos sin sqrt : R → R) (pose : Pose3d R) (d r : R)
    (infrastructure : Finset Nat) (models : List (Model R)) :
    need_to_stop (CMath.exact cos sin sqrt) pose d r infrastructure models = true ↔
      ∃ m ∈ models, m.IsStatic = false ∧ m.id ∉ infrastructure ∧
        sqrt ((m.WorldPos.X - (pose.Pos.X + d * cos pose.Yaw)) ^ 2
          + (m.WorldPos.Y - (pose.Pos.Y + d * sin pose.Yaw)) ^ 2
          + (m.WorldPos.Z - pose.Pos.Z) ^ 2) < r := by
  rw [need_to_stop_iff]
  simp only [computed_distance_exact]
  simp [CMath.exact]

theorem need_to_stop_congr (M : CMath R) (zone : Vector3d R) (r : R)
    (infrastructure : Finset Nat) (ms ms' : List (Model R))
    (h : List.Forall₂ (same_up_to_exempt_position infrastructure) ms ms') :
    need_to_stop_loop M zone r infrastructure ms
      = need_to_stop_loop M zone r infrastructure ms' := by
  induction h with
  | nil => rfl
  | @cons a b l l' hab _ ih =>
    obtain ⟨hid, _, hst, hpos⟩ := hab
    unfold need_to_stop_loop
    rw [← hst, ← hid, ih]
    by_cases hi : a.id ∈ infrastructure
    · simp [hi]
    · rw [hpos hi]

theorem need_to_stop_all_exempt (M : CMath R) (pose : Pose3d R) (d r : R)
    (infrastructure : Finset Nat) (models : List (Model R))
    (h : ∀ m ∈ models, m.IsStatic = false → m.id ∈ infrastructure) :
    need_to_stop M pose d r infrastructure models = false := by
  rw [← Bool.not_eq_true, need_to_stop_iff]
  rintro ⟨m, hm, hs, hi, _⟩
  exact hi (h m hm hs)

/-- Scenario A in real arithmetic: the scan flags the body at (1, 0). -/
theorem scenario_A_blocked (infrastructure : Finset Nat) (id : Nat) (name : String)
    (h : id ∉ infrastructure) (rest : List (Model ℝ)) :
    need_to_stop (CMath.exact Real.cos Real.sin Real.sqrt) scenario_pose 1 (1 / 2)
      infrastructure (dynamic_body id name 1 0 :: rest) = true := by
  rw [need_to_stop_exact_iff]
  refine ⟨dynamic_body id name 1 0, List.mem_cons_self _ _, rfl, h, ?_⟩
  simp [dynamic_body, scenario_pose]

/-- A body at (5, 0) is outside the stop zone of the scenarios. -/
theorem scenario_far_clear (infrastructure : Finset Nat) (id : Nat) (name : String) :
    need_to_stop (CMath.exact Real.cos Real.sin Real.sqrt) scenario_pose 1 (1 / 2)
      infrastructure [dynamic_body id name 5 0] = false := by
  rw [← Bool.not_eq_true, need_to_stop_exact_iff]
  rintro ⟨m, hm, -, -, hlt⟩
  rw [List.mem_singleton] at hm
  subst hm
  simp only [dynamic_body, scenario_pose, Real.cos_zero, Real.sin_zero] at hlt
  have h4 : Real.sqrt ((5 - (0 + 1 * 1)) ^ 2 + (0 - (0 + 1 * 0)) ^ 2 + ((0 : ℝ) - 0) ^ 2) = 4 := by
    rw [show ((5 - (0 + 1 * 1)) ^ 2 + (0 - (0 + 1 * 0)) ^ 2 + ((0 : ℝ) - 0) ^ 2) = 4 ^ 2 by
      norm_num]
    exact Real.sqrt_sq (by norm_num)
  rw [h4] at hlt
  norm_num at hlt

/-! ## Rounding to binary64 -/

theorem round_half_even_intCast (z : ℤ) : round_half_even (z : ℚ) = z := by
  unfold round_half_even
  simp

theorem round_half_even_tie (z : ℤ) (h : z % 2 = 0) :
    round_half_even ((z : ℚ) + 1 / 2) = z := by
  have hf : ⌊(z : ℚ) + 1 / 2⌋ = z := by
    rw [Int.floor_eq_iff]
    constructor <;> linarith
  unfold round_half_even
  rw [hf]
  simp [h]

theorem round_binary64_zero : round_binary64 0 = 0 := by
  simp [round_binary64, round_half_even]

theorem round_binary64_one : round_binary64 1 = 1 := by
  have he : max (Int.log 2 |(1 : ℚ)| - 52) (-1074) = -52 := by
    rw [abs_one, Int.log_one_right]; rfl
  unfold round_binary64
  rw [he]
  have hq : (1 : ℚ) / 2 ^ (-52 : ℤ) = ((4503599627370496 : ℤ) : ℚ) := by norm_num
  rw [hq, round_half_even_intCast]
  norm_num

/-- The sum `1e16 + 1` lies half way between the binary64 values `1e16` and `1e16 + 2`
(the spacing of binary64 values between `2 ^ 53` and `2 ^ 54` is 2) and rounds to the one
with the even significand, `1e16`. -/
theorem round_binary64_tie :
    round_binary64 (10000000000000000 + 1) = 10000000000000000 := by
  have hl : Int.log 2 |(10000000000000000 + 1 : ℚ)| = 53 := by
    rw [abs_of_pos (by norm_num)]
    have hc : (10000000000000000 + 1 : ℚ) = ((10000000000000001 : ℕ) : ℚ) := by norm_num
    rw [hc, Int.log_natCast]
    have : Nat.log 2 10000000000000001 = 53 :=
      Nat.log_eq_of_pow_le_of_lt_pow (by norm_num) (by norm_num)
    rw [this]; rfl
  have he : max (Int.log 2 |(10000000000000000 + 1 : ℚ)| - 52) (-1074) = 1 := by
    rw [hl]; rfl
  unfold round_binary64
  rw [he]
  have hq : (10000000000000000 + 1 : ℚ) / 2 ^ (1 : ℤ)
      = ((5000000000000000 : ℤ) : ℚ) + 1 / 2 := by norm_num
  rw [hq, round_half_even_tie _ (by decide)]
  norm_num

/-- The stop flag after any tick. -/
theorem OnUpdate_emergency_stop (M : CMath R) (p : SlotcarPlugin R) (w : World R) :
    (OnUpdate M p w).state.emergency_stop =
      if (w.update w.WorldPose w.SimTime (0, 0)).1 = true then verdict M p w
      else p.emergency_stop := by
  rcases hu : w.update w.WorldPose w.SimTime (0, 0) with ⟨b, x, yaw⟩
  cases b
  · rw [OnUpdate_no_target M p w (by rw [hu])]
    simp [ensure_initialised_emergency_stop]
  · rw [OnUpdate_target M p w x yaw hu]
    simp

/-- A body at (1.5, 0) is at distance exactly `stop_radius` from the stop zone of the
scenarios and, in real arithmetic, is not flagged. -/
theorem scenario_boundary_clear (infrastructure : Finset Nat) (id : Nat) (name : String) :
    need_to_stop (CMath.exact Real.cos Real.sin Real.sqrt) scenario_pose 1 (1 / 2)
      infrastructure [dynamic_body id name (3 / 2) 0] = false := by
  rw [← Bool.not_eq_true, need_to_stop_exact_iff]
  rintro ⟨m, hm, -, -, hlt⟩
  rw [List.mem_singleton] at hm
  subst hm
  simp only [dynamic_body, scenario_pose, Real.cos_zero, Real.sin_zero] at hlt
  have h4 : Real.sqrt ((3 / 2 - (0 + 1 * 1)) ^ 2 + (0 - (0 + 1 * 0)) ^ 2 + ((0 : ℝ) - 0) ^ 2)
      = 1 / 2 := by
    rw [show ((3 / 2 - (0 + 1 * 1)) ^ 2 + (0 - (0 + 1 * 0)) ^ 2 + ((0 : ℝ) - 0) ^ 2)
      = (1 / 2) ^ 2 by norm_num]
    exact Real.sqrt_sq (by norm_num)
  rw [h4] at hlt
  exact lt_irrefl _ hlt

/-- Scenario A in binary64 arithmetic: the scan flags the body at (1, 0). -/
theorem scenario_A_blocked_binary64 (cos sin sqrt pow2 : ℚ → ℚ) (hc : cos 0 = 1)
    (hs : sin 0 = 0) (hq : sqrt 0 = 0) (hp : pow2 0 = 0) :
    need_to_stop (binary64 cos sin sqrt pow2) scenario_pose 1 (1 / 2) {0}
      [dynamic_body 1 "obstacle" 1 0] = true := by
  rw [need_to_stop_iff]
  refine ⟨dynamic_body 1 "obstacle" 1 0, List.mem_cons_self _ _, rfl, by decide, ?_⟩
  simp only [computed_distance, stop_zone, Vector3d.Length, Vector3d.sub, Vector3d.add,
    Vector3d.scale, binary64, dynamic_body, scenario_pose, hc, hs, mul_one, zero_mul,
    add_zero, zero_add, sub_self, round_binary64_one, round_binary64_zero, hp, hq]
  simp

/-- With the vehicle at x = 1e16 and `stop_distance` 1, the sum that gives the stop zone
rounds back to 1e16, so in binary64 arithmetic the scan flags a body that sits at the
vehicle's own position. -/
theorem large_coordinate_blocked_binary64 (cos sin sqrt pow2 : ℚ → ℚ) (hc : cos 0 = 1)
    (hs : sin 0 = 0) (hq : sqrt 0 = 0) (hp : pow2 0 = 0) :
    need_to_stop (binary64 cos sin sqrt pow2) ⟨⟨10000000000000000, 0, 0⟩, 0⟩ 1 (1 / 2) {0}
      [dynamic_body 1 "obstacle" 10000000000000000 0] = true := by
  rw [need_to_stop_iff]
  refine ⟨dynamic_body 1 "obstacle" 10000000000000000 0, List.mem_cons_self _ _, rfl,
    by decide, ?_⟩
  simp only [computed_distance, stop_zone, Vector3d.Length, Vector3d.sub, Vector3d.add,
    Vector3d.scale, binary64, dynamic_body, hc, hs, mul_one, zero_mul,
    add_zero, zero_add, sub_self, round_binary64_one, round_binary64_zero,
    round_binary64_tie, hp, hq]
  simp

/-- The same body is at Euclidean distance 1 from the point one unit ahead of the
vehicle, which is not less than 0.5. -/
theorem large_coordinate_not_euclidean_blocked :
    ¬ euclidean_blocked ⟨⟨10000000000000000, 0, 0⟩, 0⟩ 1 (1 / 2) {0}
      [dynamic_body 1 "obstacle" 10000000000000000 0] := by
  rintro ⟨m, hm, -, -, hlt⟩
  rw [List.mem_singleton] at hm
  subst hm
  simp only [dynamic_body, Real.cos_zero, Real.sin_zero] at hlt
  have h1 : Real.sqrt ((10000000000000000 - (10000000000000000 + 1 * 1)) ^ 2
      + (0 - (0 + 1 * 0)) ^ 2 + ((0 : ℝ) - 0) ^ 2) = 1 := by
    rw [show ((10000000000000000 - (10000000000000000 + 1 * 1)) ^ 2
      + (0 - (0 + 1 * 0)) ^ 2 + ((0 : ℝ) - 0) ^ 2) = 1 by norm_num]
    exact Real.sqrt_one
  rw [h1] at hlt
  norm_num at hlt

/-- C3, counterexample to the claim as stated: the vehicle at (1e16, 0, 0) with yaw 0,
`stop_distance` 1.0, `stop_radius` 0.5, and one dynamic, non-exempt body at (1e16, 0, 0).
In binary64 arithmetic (with any `cos`, `sin`, `sqrt`, `pow` that are exact at 0) the code
computes the stop zone x as 1e16 + 1 rounded to 1e16, a distance 0, and
`need_to_stop` true; the Euclidean distance from the body to the point
`Pos + d * (cos yaw, sin yaw, 0)` is 1, which is not less than 0.5. -/
theorem C3_obstacle_monitor_counterexample :
    (∀ cos sin sqrt pow2 : ℚ → ℚ, cos 0 = 1 → sin 0 = 0 → sqrt 0 = 0 → pow2 0 = 0 →
      need_to_stop (binary64 cos sin sqrt pow2) ⟨⟨10000000000000000, 0, 0⟩, 0⟩ 1 (1 / 2) {0}
        [dynamic_body 1 "obstacle" 10000000000000000 0] = true) ∧
    ¬ euclidean_blocked ⟨⟨10000000000000000, 0, 0⟩, 0⟩ 1 (1 / 2) {0}
      [dynamic_body 1 "obstacle" 10000000000000000 0] :=
  ⟨large_coordinate_blocked_binary64, large_coordinate_not_euclidean_blocked⟩

/-- C3 (Obstacle Monitor), amended: for every pose, `stop_distance` d, `stop_radius` r,
list of bodies and infrastructure set, and whatever the double operations compute,
`need_to_stop` is true exactly when some body of the list is not static, is not in the
infrastructure set, and has a computed distance `(p_obstacle - stop_zone).Length()` that
compares less than r, where the computed distance is
`sqrt(pow(dx, 2) + pow(dy, 2) + pow(dz, 2))` of the computed difference between the
body's position and the computed stop zone `Pos + d * (cos yaw, sin yaw, 0)`; when the
comparison is strict, bodies whose computed distance is r are not flagged; this is the
value the stop flag takes on a tick with a target.  In arithmetic that does not round,
the computed distance is the Euclidean distance and the comparison is `<`.  The vehicle
at the origin with yaw 0, d = 1.0, r = 0.5 and a dynamic non-exempt body at (1.0, 0.0)
gives true, in real arithmetic and in binary64 arithmetic; in real arithmetic a body at
(1.5, 0.0) gives false. -/
theorem C3_obstacle_monitor (M : CMath R) (pose : Pose3d R) (d r : R)
    (infrastructure : Finset Nat) (models : List (Model R)) :
    (need_to_stop M pose d r infrastructure models = true ↔
      ∃ m ∈ models, m.IsStatic = false ∧ m.id ∉ infrastructure ∧
        M.lt (computed_distance M pose d m.WorldPos) r = true) ∧
    (∀ q : Vector3d R, computed_distance M pose d q =
      M.sqrt (M.add (M.add
        (M.pow2 (M.sub q.X (M.add pose.Pos.X (M.mul (M.cos pose.Yaw) d))))
        (M.pow2 (M.sub q.Y (M.add pose.Pos.Y (M.mul (M.sin pose.Yaw) d)))))
        (M.pow2 (M.sub q.Z (M.add pose.Pos.Z (M.mul 0 d)))))) ∧
    ((∀ x, M.lt x x = false) →
      (∀ m ∈ models, m.IsStatic = false → m.id ∉ infrastructure →
        computed_distance M pose d m.WorldPos = r) →
      need_to_stop M pose d r infrastructure models = false) ∧
    (∀ (p : SlotcarPlugin R) (w : World R),
      (w.update w.WorldPose w.SimTime (0, 0)).1 = true →
      (OnUpdate M p w).state.emergency_stop =
        need_to_stop M w.WorldPose w.stop_distance w.stop_radius
          (ensure_initialised p w).1.infrastructure w.Models) ∧
    (∀ cos sin sqrt : R → R,
      (need_to_stop (CMath.exact cos sin sqrt) pose d r infrastructure models = true ↔
        ∃ m ∈ models, m.IsStatic = false ∧ m.id ∉ infrastructure ∧
          sqrt ((m.WorldPos.X - (pose.Pos.X + d * cos pose.Yaw)) ^ 2
            + (m.WorldPos.Y - (pose.Pos.Y + d * sin pose.Yaw)) ^ 2
            + (m.WorldPos.Z - pose.Pos.Z) ^ 2) < r)) ∧
    need_to_stop (CMath.exact Real.cos Real.sin Real.sqrt) (scenario_pose : Pose3d ℝ) 1 (1 / 2)
      {0} [dynamic_body 1 "obstacle" 1 0] = true ∧
    need_to_stop (CMath.exact Real.cos Real.sin Real.sqrt) (scenario_pose : Pose3d ℝ) 1 (1 / 2)
      {0} [dynamic_body 1 "obstacle" (3 / 2) 0] = false ∧
    (∀ cos sin sqrt pow2 : ℚ → ℚ, cos 0 = 1 → sin 0 = 0 → sqrt 0 = 0 → pow2 0 = 0 →
      need_to_stop (binary64 cos sin sqrt pow2) scenario_pose 1 (1 / 2) {0}
        [dynamic_body 1 "obstacle" 1 0] = true) := by
  refine ⟨need_to_stop_iff M pose d r infrastructure models, fun q => rfl,
    fun hirr h => ?_, fun p w hu => ?_,
    fun cos sin sqrt => need_to_stop_exact_iff cos sin sqrt pose d r infrastructure models,
    scenario_A_blocked _ _ _ (by simp) _, scenario_boundary_clear _ _ _,
    scenario_A_blocked_binary64⟩
  · rw [← Bool.not_eq_true, need_to_stop_iff]
    rintro ⟨m, hm, hs, hi, hlt⟩
    rw [h m hm hs hi, hirr] at hlt
    exact Bool.noConfusion hlt
  · rw [OnUpdate_emergency_stop, if_pos hu]; rfl

/-- C5 (exempt bodies never trigger a stop): for one pose, two lists of bodies that differ
only in the positions of bodies of the infrastructure set give the same `need_to_stop`;
if every non-static body is in the infrastructure set, `need_to_stop` is false, and a
tick that starts with the stop flag clear ends with it clear and emits no notification,
wherever those bodies are.  In real arithmetic, the body of Scenario A at (1.0, 0.0),
placed in the infrastructure set, gives false. -/
theorem C5_exempt_bodies_never_stop (M : CMath R) (pose : Pose3d R) (d r : R)
    (infrastructure : Finset Nat) (ms ms' : List (Model R))
    (h : List.Forall₂ (same_up_to_exempt_position infrastructure) ms ms') :
    need_to_stop M pose d r infrastructure ms = need_to_stop M pose d r infrastructure ms' ∧
    ((∀ m ∈ ms, m.IsStatic = false → m.id ∈ infrastructure) →
      need_to_stop M pose d r infrastructure ms = false) ∧
    (∀ (p : SlotcarPlugin R) (w : World R), p.emergency_stop = false →
      (∀ m ∈ w.Models, m.IsStatic = false → m.id ∈ (ensure_initialised p w).1.infrastructure) →
      (OnUpdate M p w).state.emergency_stop = false ∧
        notifications (OnUpdate M p w).events = []) ∧
    need_to_stop (CMath.exact Real.cos Real.sin Real.sqrt) (scenario_pose : Pose3d ℝ) 1 (1 / 2) {0, 1}
      [dynamic_body 1 "obstacle" 1 0] = false := by
  refine ⟨need_to_stop_congr M _ r infrastructure ms ms' h,
    need_to_stop_all_exempt M pose d r infrastructure ms, fun p w hp hall => ?_,
    need_to_stop_all_exempt _ _ _ _ _ _ (by simp [dynamic_body])⟩
  have hv : verdict M p w = false := need_to_stop_all_exempt M _ _ _ _ _ hall
  have hs : (OnUpdate M p w).state.emergency_stop = false := by
    rw [OnUpdate_emergency_stop, hv, hp]; simp
  refine ⟨hs, ?_⟩
  rw [OnUpdate_notifications, hs, hp]; simp

/-- Witness of C5: the body of Scenario B, in the infrastructure set, at (1, 0) and at
(5, 0). -/
theorem C5_exempt_bodies_never_stop_witness :
    List.Forall₂ (same_up_to_exempt_position ({0, 1} : Finset Nat))
      [(dynamic_body 1 "obstacle" 1 0 : Model ℝ)] [dynamic_body 1 "obstacle" 5 0] ∧
    need_to_stop (CMath.exact Real.cos Real.sin Real.sqrt) (scenario_pose : Pose3d ℝ) 1 (1 / 2) {0, 1}
        [dynamic_body 1 "obstacle" 1 0]
      = need_to_stop (CMath.exact Real.cos Real.sin Real.sqrt) (scenario_pose : Pose3d ℝ) 1 (1 / 2)
        {0, 1} [dynamic_body 1 "obstacle" 5 0] :=
  have hrel : List.Forall₂ (same_up_to_exempt_position ({0, 1} : Finset Nat))
      [(dynamic_body 1 "obstacle" 1 0 : Model ℝ)] [dynamic_body 1 "obstacle" 5 0] :=
    List.Forall₂.cons ⟨rfl, rfl, rfl, fun hn => absurd (by simp [dynamic_body]) hn⟩
      List.Forall₂.nil
  ⟨hrel, (C5_exempt_bodies_never_stop _ _ _ _ _ _ _ hrel).1⟩

/-! ## The Infrastructure Classifier -/

theorem mem_init_infrastructure_loop (s : Finset Nat) (ms : List (Model R)) (x : Nat) :
    x ∈ init_infrastructure_loop s ms ↔
      x ∈ s ∨ ∃ m ∈ ms, m.IsStatic = false ∧ m.id = x ∧
        (contains_substring m.GetName "door" ∨ contains_substring m.GetName "lift") := by
  induction ms generalizing s with
  | nil => simp [init_infrastructure_loop]
  | cons m ms ih =>
    unfold init_infrastructure_loop
    by_cases hs : m.IsStatic = true
    · simp [hs, ih]
    · have hs2 : m.IsStatic = false := by simpa using hs
      rw [if_neg hs]
      simp only [ih, find_ne_none_iff, List.mem_cons, exists_eq_or_imp]
      generalize (∃ a ∈ ms, a.IsStatic = false ∧ a.id = x ∧
        (contains_substring a.GetName "door" ∨ contains_substring a.GetName "lift")) = E
      by_cases hd : contains_substring m.GetName "door" <;>
        by_cases hl : contains_substring m.GetName "lift" <;>
        simp [hd, hl, hs2, eq_comm] <;>
        tauto

theorem mem_init_infrastructure (p : SlotcarPlugin R) (w : World R) (x : Nat) :
    x ∈ (init_infrastructure p w).infrastructure ↔
      x = p._model ∨ x ∈ p.infrastructure ∨ ∃ m ∈ w.Models, m.IsStatic = false ∧ m.id = x ∧
        (contains_substring m.GetName "door" ∨ contains_substring m.GetName "lift") := by
  unfold init_infrastructure
  simp only [mem_init_infrastructure_loop, Finset.mem_insert, or_assoc]

/-- C9 (classifier membership): started from an empty set, `init_infrastructure` yields
exactly the vehicle's own identity together with every non-static body of the world whose
name contains "door" or contains "lift"; so every member is the vehicle or a non-static
body of the world, a static body (one that is not the vehicle, whatever its name) is not
a member, and an empty world yields the set that holds the vehicle alone. -/
theorem C9_classifier_membership (p : SlotcarPlugin R) (w : World R)
    (h : p.infrastructure = ∅) :
    (∀ x, x ∈ (init_infrastructure p w).infrastructure ↔
      x = p._model ∨ ∃ m ∈ w.Models, m.IsStatic = false ∧ m.id = x ∧
        (contains_substring m.GetName "door" ∨ contains_substring m.GetName "lift")) ∧
    (∀ x ∈ (init_infrastructure p w).infrastructure,
      x = p._model ∨ ∃ m ∈ w.Models, m.IsStatic = false ∧ m.id = x) ∧
    (∀ b ∈ w.Models, b.IsStatic = true → b.id ≠ p._model →
      (∀ m ∈ w.Models, m.id = b.id → m.IsStatic = true) →
      b.id ∉ (init_infrastructure p w).infrastructure) ∧
    (w.Models = [] → (init_infrastructure p w).infrastructure = {p._model}) := by
  have key : ∀ x, x ∈ (init_infrastructure p w).infrastructure ↔
      x = p._model ∨ ∃ m ∈ w.Models, m.IsStatic = false ∧ m.id = x ∧
        (contains_substring m.GetName "door" ∨ contains_substring m.GetName "lift") := by
    intro x
    rw [mem_init_infrastructure, h]
    simp
  refine ⟨key, fun x hx => ?_, fun b _ _ hne hall hmem => ?_, fun hnil => ?_⟩
  · rcases (key x).mp hx with hx | ⟨m, hm, hs, hid, _⟩
    · exact Or.inl hx
    · exact Or.inr ⟨m, hm, hs, hid⟩
  · rcases (key b.id).mp hmem with hx | ⟨m, hm, hs, hid, _⟩
    · exact hne hx
    · rw [hall m hm hid] at hs
      exact Bool.noConfusion hs
  · ext x
    rw [key, hnil]
    simp

/-- Witness of C9: a world with a static "door", a dynamic "sliding_door_2", a dynamic
"Lift" (capital L), a dynamic "lift_A" and a dynamic "crate"; the vehicle is body 0. -/
theorem C9_classifier_membership_witness :
    (Load 0 (some 1) (some 2) : SlotcarPlugin ℚ).infrastructure = ∅ ∧
    (init_infrastructure (Load 0 (some 1) (some 2) : SlotcarPlugin ℚ)
      (scenario_world 0 none [static_body 3 "door" 2 0, dynamic_body 4 "sliding_door_2" 3 0,
        dynamic_body 5 "Lift" 4 0, dynamic_body 6 "lift_A" 5 0,
        dynamic_body 7 "crate" 1 0])).infrastructure = {0, 4, 6} ∧
    3 ∉ (init_infrastructure (Load 0 (some 1) (some 2) : SlotcarPlugin ℚ)
      (scenario_world 0 none [static_body 3 "door" 2 0, dynamic_body 4 "sliding_door_2" 3 0,
        dynamic_body 5 "Lift" 4 0, dynamic_body 6 "lift_A" 5 0,
        dynamic_body 7 "crate" 1 0])).infrastructure ∧
    (init_infrastructure (Load 0 (some 1) (some 2) : SlotcarPlugin ℚ)
      (scenario_world 0 none [])).infrastructure = {0} :=
  ⟨rfl, by decide,
    (C9_classifier_membership _ _ rfl).2.2.1 (static_body 3 "door" 2 0)
      (List.mem_cons_self _ _) rfl (by decide)
      (by simp [scenario_world, static_body, dynamic_body]),
    (C9_classifier_membership _ _ rfl).2.2.2 rfl⟩

/-! ## Sequences of ticks -/

theorem ensure_initialised_of_initialised (p : SlotcarPlugin R) (w : World R)
    (h : p.initialised = true) : ensure_initialised p w = (p, []) := by
  unfold ensure_initialised; simp [h]

theorem ensure_initialised_of_not_initialised (p : SlotcarPlugin R) (w : World R)
    (h : p.initialised = false) :
    (ensure_initialised p w).1.infrastructure
      = init_infrastructure_loop (insert p._model p.infrastructure) w.Models := by
  unfold ensure_initialised init_infrastructure; simp [h]

/-- The fields of the state after any tick. -/
theorem OnUpdate_fields (M : CMath R) (p : SlotcarPlugin R) (w : World R) :
    (OnUpdate M p w).state.initialised = true ∧
    (OnUpdate M p w).state.infrastructure = (ensure_initialised p w).1.infrastructure ∧
    (OnUpdate M p w).state.last_update_time = w.SimTime ∧
    (OnUpdate M p w).state.joints = p.joints := by
  rcases hu : w.update w.WorldPose w.SimTime (0, 0) with ⟨b, x, yaw⟩
  cases b
  · rw [OnUpdate_no_target M p w (by rw [hu])]
    exact ⟨ensure_initialised_initialised p w, rfl, rfl, ensure_initialised_joints p w⟩
  · rw [OnUpdate_target M p w x yaw hu]
    exact ⟨ensure_initialised_initialised p w, rfl, rfl, ensure_initialised_joints p w⟩

theorem OnUpdate_init_infrastructure_count (M : CMath R) (p : SlotcarPlugin R) (w : World R) :
    init_infrastructure_count (OnUpdate M p w).events
      = if p.initialised = false then 1 else 0 := by
  rcases hu : w.update w.WorldPose w.SimTime (0, 0) with ⟨b, x, yaw⟩
  cases b
  · rw [OnUpdate_no_target M p w (by rw [hu])]
    exact (ensure_initialised_events p w).2.2.2
  · rw [OnUpdate_target M p w x yaw hu]
    simp only [init_infrastructure_count_append, (ensure_initialised_events p w).2.2.2,
      (cout_events _ _).2.2.2, (send_control_signals_events p w _ _ _).2, Nat.add_zero]

theorem run_cons (M : CMath R) (p : SlotcarPlugin R) (w : World R) (ws : List (World R)) :
    run M p (w :: ws) = OnUpdate M p w ::
      (if (OnUpdate M p w).outcome = Outcome.returned then run M (OnUpdate M p w).state ws
       else []) := rfl

/-- Once initialised, no tick runs the classifier or changes the infrastructure set. -/
theorem run_initialised (M : CMath R) (p : SlotcarPlugin R) (ws : List (World R))
    (h : p.initialised = true) :
    ∀ r ∈ run M p ws, r.state.initialised = true ∧
      r.state.infrastructure = p.infrastructure ∧ init_infrastructure_count r.events = 0 := by
  induction ws generalizing p with
  | nil => intro r hr; simp [run] at hr
  | cons w ws ih =>
    intro r hr
    rw [run_cons, List.mem_cons] at hr
    have hf := OnUpdate_fields M p w
    have hinf : (OnUpdate M p w).state.infrastructure = p.infrastructure := by
      rw [hf.2.1, ensure_initialised_of_initialised p w h]
    rcases hr with hr | hr
    · subst hr
      refine ⟨hf.1, hinf, ?_⟩
      rw [OnUpdate_init_infrastructure_count]; simp [h]
    · by_cases ho : (OnUpdate M p w).outcome = Outcome.returned
      · rw [if_pos ho] at hr
        obtain ⟨h1, h2, h3⟩ := ih (OnUpdate M p w).state hf.1 r hr
        exact ⟨h1, h2.trans hinf, h3⟩
      · rw [if_neg ho] at hr
        simp at hr

theorem sum_init_infrastructure_count_eq_zero (rs : List (TickResult R))
    (h : ∀ r ∈ rs, init_infrastructure_count r.events = 0) :
    (rs.map fun r => init_infrastructure_count r.events).sum = 0 := by
  induction rs with
  | nil => rfl
  | cons r rs ih =>
    rw [List.map_cons, List.sum_cons, h r (List.mem_cons_self _ _),
      ih fun r' hr' => h r' (List.mem_cons_of_mem _ hr')]

/-- C8 (one-shot classification): in every sequence of one or more ticks from the state
after `Load`, `init_infrastructure` executes on the first tick (with or without a
trajectory target) and exactly once in total; after every tick `initialised` is true and
the infrastructure set is the one computed from the world of the first tick; a tick on an
initialised state leaves the set as it is; so a body that is not in the world of the first
tick is never a member, whatever its name in a later world. -/
theorem C8_one_shot_classification (M : CMath R) (model : Nat) (jl jr : Option Nat)
    (w : World R) (ws : List (World R)) :
    (run M (Load model jl jr) (w :: ws)).head? = some (OnUpdate M (Load model jl jr) w) ∧
    init_infrastructure_count (OnUpdate M (Load model jl jr) w).events = 1 ∧
    ((run M (Load model jl jr) (w :: ws)).map
      fun r => init_infrastructure_count r.events).sum = 1 ∧
    (∀ r ∈ run M (Load model jl jr) (w :: ws), r.state.initialised = true ∧
      r.state.infrastructure = init_infrastructure_loop {model} w.Models) ∧
    (∀ (p : SlotcarPlugin R) (w' : World R), p.initialised = true →
      (OnUpdate M p w').state.infrastructure = p.infrastructure ∧
      init_infrastructure_count (OnUpdate M p w').events = 0) ∧
    (∀ r ∈ run M (Load model jl jr) (w :: ws), ∀ x, x ≠ model →
      (∀ m ∈ w.Models, m.id ≠ x) → x ∉ r.state.infrastructure) := by
  have hf := OnUpdate_fields M (Load model jl jr : SlotcarPlugin R) w
  have hc : init_infrastructure_count (OnUpdate M (Load model jl jr) w).events = 1 := by
    rw [OnUpdate_init_infrastructure_count]; rfl
  have h0 : (OnUpdate M (Load model jl jr) w).state.infrastructure
      = init_infrastructure_loop {model} w.Models := by
    rw [hf.2.1, ensure_initialised_of_not_initialised _ _ rfl]; rfl
  have hrest : ∀ r ∈ (if (OnUpdate M (Load model jl jr) w).outcome = Outcome.returned
      then run M (OnUpdate M (Load model jl jr) w).state ws else []),
      r.state.initialised = true ∧
      r.state.infrastructure = init_infrastructure_loop {model} w.Models ∧
      init_infrastructure_count r.events = 0 := by
    intro r hr
    by_cases ho : (OnUpdate M (Load model jl jr) w).outcome = Outcome.returned
    · rw [if_pos ho] at hr
      obtain ⟨h1, h2, h3⟩ := run_initialised M _ ws hf.1 r hr
      exact ⟨h1, h2.trans h0, h3⟩
    · rw [if_neg ho] at hr
      simp at hr
  have hall : ∀ r ∈ run M (Load model jl jr) (w :: ws), r.state.initialised = true ∧
      r.state.infrastructure = init_infrastructure_loop {model} w.Models := by
    intro r hr
    rw [run_cons, List.mem_cons] at hr
    rcases hr with hr | hr
    · subst hr; exact ⟨hf.1, h0⟩
    · exact ⟨(hrest r hr).1, (hrest r hr).2.1⟩
  refine ⟨rfl, hc, ?_, hall, fun p w' hp => ?_, fun r hr x hx hnot hmem => ?_⟩
  · rw [run_cons, List.map_cons, List.sum_cons, hc,
      sum_init_infrastructure_count_eq_zero _ fun r hr => (hrest r hr).2.2]
  · refine ⟨?_, ?_⟩
    · rw [(OnUpdate_fields M p w').2.1, ensure_initialised_of_initialised p w' hp]
    · rw [OnUpdate_init_infrastructure_count]; simp [hp]
  · rw [(hall r hr).2, mem_init_infrastructure_loop] at hmem
    rcases hmem with hmem | ⟨m, hm, _, hid, _⟩
    · exact hx (by simpa using hmem)
    · exact hnot m hm hid

/-! ## The notification trace -/

theorem alternating_length (s : Bool) (k : Nat) : (alternating s k).length = k := by
  induction k generalizing s with
  | zero => rfl
  | succ k ih => simp [alternating, ih]

theorem alternating_getElem? (s : Bool) (k i : Nat) (n : Notification)
    (h : (alternating s k)[i]? = some n) :
    n = if (decide (i % 2 = 0) != s) = true then Notification.stopping
      else Notification.resuming := by
  induction k generalizing s i with
  | zero => simp [alternating] at h
  | succ k ih =>
    cases i with
    | zero =>
      simp only [alternating, List.getElem?_cons_zero, Option.some.injEq] at h
      subst h
      cases s <;> rfl
    | succ i =>
      simp only [alternating, List.getElem?_cons_succ] at h
      rw [ih (!s) i h]
      rcases Nat.mod_two_eq_zero_or_one i with hi | hi
      · have h2 : (i + 1) % 2 = 1 := by omega
        cases s <;> simp [hi, h2]
      · have h2 : (i + 1) % 2 = 0 := by omega
        cases s <;> simp [hi, h2]

/-- The trace of a sequence of ticks from any state: it alternates, starts with the
notification of leaving the current state, and has one entry per change of the flag. -/
theorem trace_run (M : CMath R) (p : SlotcarPlugin R) (ws : List (World R)) :
    trace (run M p ws)
      = alternating p.emergency_stop (flag_changes p.emergency_stop (flags (run M p ws))) := by
  induction ws generalizing p with
  | nil => rfl
  | cons w ws ih =>
    rw [run_cons]
    have hrest : trace (if (OnUpdate M p w).outcome = Outcome.returned
        then run M (OnUpdate M p w).state ws else [])
        = alternating (OnUpdate M p w).state.emergency_stop
          (flag_changes (OnUpdate M p w).state.emergency_stop
            (flags (if (OnUpdate M p w).outcome = Outcome.returned
              then run M (OnUpdate M p w).state ws else []))) := by
      by_cases ho : (OnUpdate M p w).outcome = Outcome.returned
      · rw [if_pos ho]; exact ih _
      · rw [if_neg ho]; rfl
    simp only [trace, flags, List.map_cons, flag_changes]
    simp only [flags] at hrest
    rw [hrest, OnUpdate_notifications]
    by_cases hc : (OnUpdate M p w).state.emergency_stop = p.emergency_stop
    · simp [hc]
    · have hb : (OnUpdate M p w).state.emergency_stop = !p.emergency_stop := by
        cases h1 : (OnUpdate M p w).state.emergency_stop <;> cases h2 : p.emergency_stop <;>
          simp_all
      rw [if_pos hc, if_neg hc, Nat.add_comm, alternating, hb]
      cases p.emergency_stop <;> rfl

/-- C6 (notification trace): for every finite sequence of ticks from the state after
`Load` (stop flag clear), the emitted notifications are "stopping", "resuming",
"stopping", ... in alternation, beginning with "stopping", and their number is the number
of times the stop flag changed value.  Hence, from a state with the flag clear, two
consecutive ticks with a target and a blocked verdict emit exactly one notification,
"stopping"; and a tick with a blocked verdict followed by a tick with a clear verdict
emits no "resuming" on the first and exactly the one notification "resuming" on the
second. -/
theorem C6_notification_trace (M : CMath R) (model : Nat) (jl jr : Option Nat)
    (ws : List (World R)) :
    (trace (run M (Load model jl jr) ws)).length
      = flag_changes false (flags (run M (Load model jl jr) ws)) ∧
    (∀ i n, (trace (run M (Load model jl jr) ws))[i]? = some n →
      n = if i % 2 = 0 then Notification.stopping else Notification.resuming) ∧
    (∀ (p : SlotcarPlugin R) (w1 w2 : World R), p.emergency_stop = false →
      (w1.update w1.WorldPose w1.SimTime (0, 0)).1 = true →
      (w2.update w2.WorldPose w2.SimTime (0, 0)).1 = true →
      verdict M p w1 = true → verdict M (OnUpdate M p w1).state w2 = true →
      trace (run M p [w1, w2]) = [Notification.stopping]) ∧
    (∀ (p : SlotcarPlugin R) (w1 w2 : World R),
      (w1.update w1.WorldPose w1.SimTime (0, 0)).1 = true →
      (w2.update w2.WorldPose w2.SimTime (0, 0)).1 = true →
      verdict M p w1 = true → verdict M (OnUpdate M p w1).state w2 = false →
      Notification.resuming ∉ notifications (OnUpdate M p w1).events ∧
      notifications (OnUpdate M (OnUpdate M p w1).state w2).events
        = [Notification.resuming]) := by
  have ht := trace_run M (Load model jl jr : SlotcarPlugin R) ws
  have hl : (Load model jl jr : SlotcarPlugin R).emergency_stop = false := rfl
  rw [hl] at ht
  refine ⟨?_, fun i n hn => ?_, fun p w1 w2 hp h1 h2 hv1 hv2 => ?_,
    fun p w1 w2 h1 h2 hv1 hv2 => ?_⟩
  · rw [ht, alternating_length]
  · rw [ht] at hn
    rw [alternating_getElem? false _ i n hn]
    simp
  · have hs1 : (OnUpdate M p w1).state.emergency_stop = true := by
      rw [OnUpdate_emergency_stop, if_pos h1, hv1]
    have hs2 : (OnUpdate M (OnUpdate M p w1).state w2).state.emergency_stop = true := by
      rw [OnUpdate_emergency_stop, if_pos h2, hv2]
    have hn1 : notifications (OnUpdate M p w1).events = [Notification.stopping] := by
      rw [OnUpdate_notifications, hs1, hp]; simp
    have hn2 : notifications (OnUpdate M (OnUpdate M p w1).state w2).events = [] := by
      rw [OnUpdate_notifications, hs2, hs1]; simp
    rw [run_cons]
    by_cases ho : (OnUpdate M p w1).outcome = Outcome.returned
    · rw [if_pos ho, run_cons]
      simp only [trace, hn1, hn2]
      by_cases ho2 : (OnUpdate M (OnUpdate M p w1).state w2).outcome = Outcome.returned
      · rw [if_pos ho2]; rfl
      · rw [if_neg ho2]; rfl
    · rw [if_neg ho]
      simp only [trace, hn1]
      rfl
  · have hs1 : (OnUpdate M p w1).state.emergency_stop = true := by
      rw [OnUpdate_emergency_stop, if_pos h1, hv1]
    have hs2 : (OnUpdate M (OnUpdate M p w1).state w2).state.emergency_stop = false := by
      rw [OnUpdate_emergency_stop, if_pos h2, hv2]
    refine ⟨?_, ?_⟩
    · rw [OnUpdate_notifications, hs1]
      by_cases hp : p.emergency_stop = true <;> simp [hp]
    · rw [OnUpdate_notifications, hs2, hs1]; simp

/-! ## Elapsed time -/

/-- A tick with a target on a vehicle one of whose wheel joint handles is null ends in a
null dereference inside `send_control_signals`; neither `calculate_control_signals` nor
any `SetParam` is called. -/
theorem OnUpdate_missing_joint (M : CMath R) (p : SlotcarPlugin R) (w : World R)
    (x yaw : R) (h : w.update w.WorldPose w.SimTime (0, 0) = (true, (x, yaw)))
    (hj : p.joints.1 = none ∨ p.joints.2 = none) :
    (OnUpdate M p w).outcome = Outcome.null_dereference ∧
    actuator_calls (OnUpdate M p w).events = [] ∧
    drive_mapper_calls (OnUpdate M p w).events = [] := by
  rw [OnUpdate_target M p w x yaw h]
  simp only [send_control_signals_absent p w _ _ _ hj, actuator_calls_append,
    drive_mapper_calls_append, (ensure_initialised_events p w).2.1,
    (ensure_initialised_events p w).2.2.1, (cout_events _ _).2.1, (cout_events _ _).2.2.1]
  simp [actuator_calls, drive_mapper_calls]

/-- C7 (missing wheel actuator), the code at a failing input: the vehicle whose left wheel
joint was not found at `Load` and whose right wheel joint is joint 2, on a first tick
with target (2, 0.5) in an empty world.  The tick does not complete: it ends in a null
dereference, and no `SetParam` call reaches the right wheel, which is present. -/
theorem C7_missing_wheel_actuator_fault :
    (OnUpdate (CMath.exact Real.cos Real.sin Real.sqrt) (Load 0 none (some 2) : SlotcarPlugin ℝ)
        (scenario_world 1 (some (2, 1 / 2)) [])).outcome = Outcome.null_dereference ∧
    actuator_calls
      (OnUpdate (CMath.exact Real.cos Real.sin Real.sqrt) (Load 0 none (some 2) : SlotcarPlugin ℝ)
        (scenario_world 1 (some (2, 1 / 2)) [])).events = [] :=
  ⟨(OnUpdate_missing_joint _ _ _ 2 (1 / 2) rfl (Or.inl rfl)).1,
    (OnUpdate_missing_joint _ _ _ 2 (1 / 2) rfl (Or.inl rfl)).2.1⟩

/-! ## The scenarios, evaluated in real arithmetic -/

theorem crate_not_exempt (p : SlotcarPlugin ℝ) (time : ℝ) (target : Option (ℝ × ℝ))
    (x y : ℝ) (h : 7 ∉ insert p._model p.infrastructure) :
    7 ∉ (ensure_initialised p
      (scenario_world time target [dynamic_body 7 "crate" x y])).1.infrastructure := by
  unfold ensure_initialised
  by_cases hi : p.initialised = false
  · rw [if_pos hi]
    intro hmem
    have hmem2 := (mem_init_infrastructure _ _ 7).mp hmem
    rcases hmem2 with h1 | h1 | ⟨m, hm, _, _, hn⟩
    · exact h (by rw [h1]; exact Finset.mem_insert_self _ _)
    · exact h (Finset.mem_insert_of_mem h1)
    · simp only [scenario_world, List.mem_singleton] at hm
      subst hm
      revert hn
      simp only [dynamic_body]
      decide
  · rw [if_neg hi]
    exact fun hmem => h (Finset.mem_insert_of_mem hmem)

theorem verdict_blocked_world (p : SlotcarPlugin ℝ) (time : ℝ)
    (h : 7 ∉ insert p._model p.infrastructure) :
    verdict (CMath.exact Real.cos Real.sin Real.sqrt) p (blocked_world time) = true :=
  scenario_A_blocked _ 7 "crate" (crate_not_exempt p time _ 1 0 h) []

theorem verdict_clear_world (p : SlotcarPlugin ℝ) (time : ℝ) :
    verdict (CMath.exact Real.cos Real.sin Real.sqrt) p (clear_world time) = false :=
  scenario_far_clear _ 7 "crate"

/-- C2 (stop veto), the code at a failing input: the vehicle whose left wheel joint was
not found at `Load` (right wheel joint 2), on the first tick of Scenario A, where
`update` returns the target (2, 0.5) and a body sits in the stop zone.  The stop flag is
set, but `calculate_control_signals` is not called at all: the tick ends in a null
dereference in `send_control_signals` before the call. -/
theorem C2_stop_veto_missing_joint :
    (blocked_world (1 : ℝ)).update (blocked_world 1).WorldPose (blocked_world 1).SimTime (0, 0)
      = (true, (2, 1 / 2)) ∧
    (OnUpdate (CMath.exact Real.cos Real.sin Real.sqrt) (Load 0 none (some 2) : SlotcarPlugin ℝ)
      (blocked_world 1)).state.emergency_stop = true ∧
    drive_mapper_calls
      (OnUpdate (CMath.exact Real.cos Real.sin Real.sqrt) (Load 0 none (some 2) : SlotcarPlugin ℝ)
        (blocked_world 1)).events = [] ∧
    (OnUpdate (CMath.exact Real.cos Real.sin Real.sqrt) (Load 0 none (some 2) : SlotcarPlugin ℝ)
      (blocked_world 1)).outcome = Outcome.null_dereference := by
  have hm := OnUpdate_missing_joint (CMath.exact Real.cos Real.sin Real.sqrt)
    (Load 0 none (some 2) : SlotcarPlugin ℝ) (blocked_world 1) 2 (1 / 2) rfl (Or.inl rfl)
  refine ⟨rfl, ?_, hm.2.2, hm.1⟩
  rw [OnUpdate_emergency_stop, verdict_blocked_world _ 1 (by decide)]
  rfl


/-- Witness of C1: the first tick of Scenario A sets the flag and prints "stopping". -/
theorem C1_stop_arbiter_single_step_witness :
    (blocked_world (1 : ℝ)).update (blocked_world 1).WorldPose (blocked_world 1).SimTime (0, 0)
      = (true, (2, 1 / 2)) ∧
    verdict (CMath.exact Real.cos Real.sin Real.sqrt) scenario_vehicle (blocked_world 1) = true ∧
    (OnUpdate (CMath.exact Real.cos Real.sin Real.sqrt) scenario_vehicle
      (blocked_world 1)).state.emergency_stop = true ∧
    notifications (OnUpdate (CMath.exact Real.cos Real.sin Real.sqrt) scenario_vehicle
      (blocked_world 1)).events = [Notification.stopping] :=
  have hv : verdict (CMath.exact Real.cos Real.sin Real.sqrt) scenario_vehicle (blocked_world 1) = true :=
    verdict_blocked_world _ 1 (by decide)
  have hc := C1_stop_arbiter_single_step (CMath.exact Real.cos Real.sin Real.sqrt)
    scenario_vehicle (blocked_world 1) 2 (1 / 2) rfl
  ⟨rfl, hv, hc.1.trans hv, by
    rw [hc.2.2 (by rw [hv]; exact Bool.noConfusion), hv]; rfl⟩

/-- Scenario A with both wheel joints: on the first tick the target (2, 0.5) reaches
`calculate_control_signals` as (0, 0.5), with elapsed time 1. -/
theorem stop_veto_scenario_A :
    (blocked_world (1 : ℝ)).update (blocked_world 1).WorldPose (blocked_world 1).SimTime (0, 0)
      = (true, (2, 1 / 2)) ∧
    (OnUpdate (CMath.exact Real.cos Real.sin Real.sqrt) (scenario_vehicle : SlotcarPlugin ℝ)
      (blocked_world 1)).outcome = Outcome.returned ∧
    drive_mapper_calls (OnUpdate (CMath.exact Real.cos Real.sin Real.sqrt) scenario_vehicle
      (blocked_world 1)).events = [((0, 0), 0, 1 / 2, 1)] :=
  have hv : verdict (CMath.exact Real.cos Real.sin Real.sqrt) scenario_vehicle (blocked_world 1) = true :=
    verdict_blocked_world _ 1 (by decide)
  have hs : (OnUpdate (CMath.exact Real.cos Real.sin Real.sqrt) scenario_vehicle
      (blocked_world 1)).state.emergency_stop = true := by
    rw [OnUpdate_emergency_stop, hv]; rfl
  have hr : (OnUpdate (CMath.exact Real.cos Real.sin Real.sqrt) (scenario_vehicle : SlotcarPlugin ℝ)
      (blocked_world 1)).outcome = Outcome.returned := by
    rw [OnUpdate_target _ _ _ 2 (1 / 2) rfl]; rfl
  ⟨rfl, hr, by
    obtain ⟨j0, j1, hj, hc, -⟩ := stop_veto_of_returned (CMath.exact Real.cos Real.sin Real.sqrt)
      scenario_vehicle (blocked_world 1) 2 (1 / 2) rfl hr
    rw [hc, hs]
    simp [blocked_world, scenario_world, scenario_vehicle, Load]⟩

theorem OnUpdate_model (M : CMath R) (p : SlotcarPlugin R) (w : World R) :
    (OnUpdate M p w).state._model = p._model := by
  have hm : (ensure_initialised p w).1._model = p._model := by
    unfold ensure_initialised init_infrastructure; split <;> rfl
  rcases hu : w.update w.WorldPose w.SimTime (0, 0) with ⟨b, x, yaw⟩
  cases b
  · rw [OnUpdate_no_target M p w (by rw [hu])]; exact hm
  · rw [OnUpdate_target M p w x yaw hu]; exact hm

/-- After the first tick of the scenario vehicle in a world whose only body is the
"crate", the crate is still not exempt. -/
theorem crate_not_exempt_after (M : CMath ℝ) (time : ℝ) (target : Option (ℝ × ℝ))
    (x y : ℝ) :
    7 ∉ insert
      (OnUpdate M scenario_vehicle
        (scenario_world time target [dynamic_body 7 "crate" x y])).state._model
      (OnUpdate M scenario_vehicle
        (scenario_world time target [dynamic_body 7 "crate" x y])).state.infrastructure := by
  rw [OnUpdate_model, (OnUpdate_fields M _ _).2.1, Finset.mem_insert, not_or]
  exact ⟨by decide, crate_not_exempt _ time target x y (by decide)⟩

/-- Witness of C4: Scenario D.  After the first tick of Scenario A has set the stop flag,
a tick without a target, with the body still in the stop zone, calls nothing, prints
nothing and leaves the flag set. -/
theorem C4_trajectory_exhaustion_witness :
    ((exhausted_world (3 : ℝ)).update (exhausted_world 3).WorldPose
      (exhausted_world 3).SimTime (0, 0)).1 = false ∧
    (OnUpdate (CMath.exact Real.cos Real.sin Real.sqrt) (scenario_vehicle : SlotcarPlugin ℝ)
      (blocked_world 1)).state.emergency_stop = true ∧
    drive_mapper_calls (OnUpdate (CMath.exact Real.cos Real.sin Real.sqrt)
      (OnUpdate (CMath.exact Real.cos Real.sin Real.sqrt) (scenario_vehicle : SlotcarPlugin ℝ)
        (blocked_world 1)).state (exhausted_world 3)).events = [] ∧
    actuator_calls (OnUpdate (CMath.exact Real.cos Real.sin Real.sqrt)
      (OnUpdate (CMath.exact Real.cos Real.sin Real.sqrt) (scenario_vehicle : SlotcarPlugin ℝ)
        (blocked_world 1)).state (exhausted_world 3)).events = [] ∧
    notifications (OnUpdate (CMath.exact Real.cos Real.sin Real.sqrt)
      (OnUpdate (CMath.exact Real.cos Real.sin Real.sqrt) (scenario_vehicle : SlotcarPlugin ℝ)
        (blocked_world 1)).state (exhausted_world 3)).events = [] ∧
    (OnUpdate (CMath.exact Real.cos Real.sin Real.sqrt)
      (OnUpdate (CMath.exact Real.cos Real.sin Real.sqrt) (scenario_vehicle : SlotcarPlugin ℝ)
        (blocked_world 1)).state (exhausted_world 3)).state.emergency_stop = true :=
  have hs : (OnUpdate (CMath.exact Real.cos Real.sin Real.sqrt) (scenario_vehicle : SlotcarPlugin ℝ)
      (blocked_world 1)).state.emergency_stop = true := by
    rw [OnUpdate_emergency_stop, verdict_blocked_world _ 1 (by decide)]; rfl
  have hc := C4_trajectory_exhaustion (CMath.exact Real.cos Real.sin Real.sqrt)
    (OnUpdate (CMath.exact Real.cos Real.sin Real.sqrt) (scenario_vehicle : SlotcarPlugin ℝ)
      (blocked_world 1)).state (exhausted_world 3) rfl
  ⟨rfl, hs, hc.1, hc.2.1, hc.2.2.1, hc.2.2.2.1.trans hs⟩

/-- Witness of C6: Scenario A twice in a row prints "stopping" once; Scenario A followed
by Scenario C prints "resuming" once, on the second tick. -/
theorem C6_notification_trace_witness :
    trace (run (CMath.exact Real.cos Real.sin Real.sqrt) (scenario_vehicle : SlotcarPlugin ℝ)
      [blocked_world 1, blocked_world 2]) = [Notification.stopping] ∧
    Notification.resuming ∉ notifications (OnUpdate (CMath.exact Real.cos Real.sin Real.sqrt)
      (scenario_vehicle : SlotcarPlugin ℝ) (blocked_world 1)).events ∧
    notifications (OnUpdate (CMath.exact Real.cos Real.sin Real.sqrt)
      (OnUpdate (CMath.exact Real.cos Real.sin Real.sqrt) (scenario_vehicle : SlotcarPlugin ℝ)
        (blocked_world 1)).state (clear_world 2)).events = [Notification.resuming] :=
  have hc := C6_notification_trace (CMath.exact Real.cos Real.sin Real.sqrt) 0 (some 1) (some 2)
    ([] : List (World ℝ))
  ⟨hc.2.2.1 scenario_vehicle (blocked_world 1) (blocked_world 2) rfl rfl rfl
      (verdict_blocked_world _ 1 (by decide))
      (verdict_blocked_world _ 2 (crate_not_exempt_after _ 1 _ 1 0)),
    hc.2.2.2 scenario_vehicle (blocked_world 1) (clear_world 2) rfl rfl
      (verdict_blocked_world _ 1 (by decide)) (verdict_clear_world _ 2)⟩

/-- Witness of C8: a body named "door_late" that first appears in the world of the second
tick is not in the infrastructure set after any tick, and the classifier ran once. -/
theorem C8_one_shot_classification_witness :
    ((run (CMath.exact Real.cos Real.sin Real.sqrt) (Load 0 (some 1) (some 2) : SlotcarPlugin ℝ)
      [blocked_world 1, scenario_world 2 (some (2, 1 / 2)) [dynamic_body 9 "door_late" 9 9]]).map
        fun r => init_infrastructure_count r.events).sum = 1 ∧
    ∀ r ∈ run (CMath.exact Real.cos Real.sin Real.sqrt) (Load 0 (some 1) (some 2) : SlotcarPlugin ℝ)
      [blocked_world 1, scenario_world 2 (some (2, 1 / 2)) [dynamic_body 9 "door_late" 9 9]],
      9 ∉ r.state.infrastructure :=
  have hc := C8_one_shot_classification (CMath.exact Real.cos Real.sin Real.sqrt) 0 (some 1) (some 2)
    (blocked_world (1 : ℝ)) [scenario_world 2 (some (2, 1 / 2)) [dynamic_body 9 "door_late" 9 9]]
  ⟨hc.2.2.1, fun r hr => hc.2.2.2.2.2 r hr 9 (by decide)
    (by simp [blocked_world, scenario_world, dynamic_body])⟩

end Slotcar
